import Mathlib

/-!
Verification development for the WonderKid interactive-story client
(repository bigredhacks25).  The definitions below are a shallow
embedding of the story-session state machine of the StoryScreen
component (src/unnamed/part_002), of the video-status poller and
playback-URL selection of the VideoPlayerScreen component
(src/frontend/WonderKid/components/VideoPlayerScreen.js), and of the
gallery persistence helper saveImageToGallery (src/unnamed/part_002,
lines 26-48).  JavaScript truthiness of the relevant value shapes is
made explicit: an optional string is truthy when it is present and
non-empty, an optional number is truthy when it is present and
non-zero, and an optional array is truthy exactly when it is present
(an empty array is truthy).
-/

/-- Truthiness of a JavaScript value that is either a string or
absent: absent and the empty string are falsy. -/
def strTruthy : Option String → Bool
  | none => false
  | some s => s != ""

/-- The JavaScript expression v or-else d for numbers: 0 and absence
are falsy, so they fall through to the default. -/
def numOr (v : Option Nat) (d : Nat) : Nat :=
  match v with
  | none => d
  | some n => if n = 0 then d else n

/-- The JavaScript expression v or-else d for strings: the empty
string and absence fall through to the default. -/
def strOr (v : Option String) (d : Option String) : Option String :=
  if strTruthy v then v else d

/-- The JavaScript string method trim: whitespace is removed from
both ends.  Defined over the character list so that it evaluates by
reduction. -/
def jsTrim (s : String) : String :=
  ⟨((s.data.dropWhile Char.isWhitespace).reverse.dropWhile
      Char.isWhitespace).reverse⟩

/-- The JavaScript string method startsWith, over character lists. -/
def jsStartsWith (s pre : String) : Bool :=
  s.data.take pre.data.length == pre.data

/-- The JavaScript string method toLowerCase, over character lists. -/
def jsToLowerCase (s : String) : String :=
  ⟨s.data.map Char.toLower⟩

/-- The five UI phases of the story screen
(src/unnamed/part_002, line 51). -/
inductive Phase where
  | input
  | loading
  | reading
  | choosing
  | complete
  deriving DecidableEq, Repr

/-- The storyData record of the story screen.  Fields that a given
JavaScript object literal omits are modelled as none, false or [].
Matches the useState initialiser at src/unnamed/part_002, lines 53-61,
whose defaults are the defaults below. -/
structure StoryData where
  paragraphs : List String := []
  currentParagraph : Nat := 0
  iteration : Nat := 1
  maxIterations : Nat := 10
  choices : Option (List String) := none
  imageUrl : Option String := none
  imageGenerated : Bool := false
  storyId : Option String := none
  storyTitle : Option String := none
  mood : Option String := none
  educationalTheme : Option String := none
  illustrationPrompts : List String := []
  deriving DecidableEq, Repr

/-- The view state of the story screen: phase, the text field, the
video trigger flag, the storyData record and the session story-id
ref (src/unnamed/part_002, lines 51-73). -/
structure ScreenState where
  phase : Phase
  userInput : String
  videoTriggered : Bool
  storyData : StoryData
  sessionStoryIdRef : Option String
  deriving DecidableEq, Repr

/-- The initial component state: phase input, empty input, video not
triggered, default storyData, no session id
(src/unnamed/part_002, lines 51-73). -/
def initState : ScreenState :=
  { phase := Phase.input
    userInput := ""
    videoTriggered := false
    storyData := {}
    sessionStoryIdRef := none }

/-- The JSON body of a successful generate-story response
(fields read at src/unnamed/part_002, lines 160-202). -/
structure GenerateResult where
  story_id : Option String := none
  paragraphs : Option (List String) := none
  choices : Option (List String) := none
  image_url : Option String := none
  image_generated : Bool := false
  story_title : Option String := none
  mood : Option String := none
  educational_theme : Option String := none
  illustration_prompts : Option (List String) := none
  deriving DecidableEq, Repr

/-- The JSON body of a successful continue-story response
(fields read at src/unnamed/part_002, lines 267-305). -/
structure ContinueResult where
  paragraphs : Option (List String) := none
  current_paragraph : Option Nat := none
  choices : Option (List String) := none
  image_url : Option String := none
  image_generated : Bool := false
  video_trigger : Bool := false
  story_id : Option String := none
  deriving DecidableEq, Repr

/-- Resolution of the story id on generate-story: the backend id is
kept unless it is absent, empty or whitespace-only, in which case a
local fallback id derived from the current time is substituted
(src/unnamed/part_002, lines 167-176). -/
def resolveStoryId (sid : Option String) (now : Nat) : String :=
  match sid with
  | none => "story_" ++ toString now
  | some s => if jsTrim s = "" then "story_" ++ toString now else s

/-- Effect of a successful generate-story response on the component
state: seeds a fresh storyData from the response, moves to the
reading phase, clears the video trigger and stores the resolved
story id in the session ref (src/unnamed/part_002, lines 135-204). -/
def applyGenerateSuccess (st : ScreenState) (r : GenerateResult) (now : Nat) :
    ScreenState :=
  { st with
    phase := Phase.reading
    videoTriggered := false
    sessionStoryIdRef := some (resolveStoryId r.story_id now)
    storyData :=
      { paragraphs := r.paragraphs.getD []
        currentParagraph := 0
        choices := some (r.choices.getD [])
        iteration := 1
        maxIterations := 10
        storyTitle := r.story_title
        mood := r.mood
        educationalTheme := r.educational_theme
        illustrationPrompts := r.illustration_prompts.getD []
        imageUrl := strOr r.image_url none
        imageGenerated := r.image_generated
        storyId := some (resolveStoryId r.story_id now) } }

/-- Effect of a failed generate-story call: the user is alerted and
the phase returns to input; the session ref and the video trigger
were already cleared at the start of the call
(src/unnamed/part_002, lines 136-140 and 206-230). -/
def applyGenerateFailure (st : ScreenState) : ScreenState :=
  { st with
    phase := Phase.input
    videoTriggered := false
    sessionStoryIdRef := none }

/-- The next button handler: advance within the local paragraphs,
otherwise move to choosing when choices are present (non-null) and
the iteration cap is not reached, otherwise complete
(src/unnamed/part_002, lines 233-244).  The comparison
currentParagraph < length - 1 is integer arithmetic, as in
JavaScript. -/
def handleNext (st : ScreenState) : ScreenState :=
  if (st.storyData.currentParagraph : Int) <
      (st.storyData.paragraphs.length : Int) - 1 then
    { st with storyData :=
       { st.storyData with
          currentParagraph := st.storyData.currentParagraph + 1 } }
  else if st.storyData.choices.isSome = true ∧
      st.storyData.iteration < st.storyData.maxIterations then
    { st with phase := Phase.choosing }
  else
    { st with phase := Phase.complete }

/-- Effect of a successful continue-story response: the storyData is
updated field by field through the JavaScript or-else defaults, the
iteration is incremented, the session ref is updated when the
response carries a truthy story id, the video trigger fires on the
response flag or on reaching the 10th iteration, and the phase
returns to reading (src/unnamed/part_002, lines 246-324). -/
def applyChoiceSuccess (st : ScreenState) (r : ContinueResult) : ScreenState :=
  { st with
    phase := Phase.reading
    videoTriggered := st.videoTriggered ||
      (r.video_trigger || decide (10 ≤ st.storyData.iteration + 1))
    sessionStoryIdRef :=
      if strTruthy r.story_id then r.story_id else st.sessionStoryIdRef
    storyData :=
      { st.storyData with
        paragraphs := r.paragraphs.getD st.storyData.paragraphs
        currentParagraph := numOr r.current_paragraph st.storyData.currentParagraph
        choices := r.choices
        iteration := st.storyData.iteration + 1
        imageUrl := strOr r.image_url st.storyData.imageUrl
        imageGenerated := r.image_generated
        storyId :=
          if strTruthy r.story_id then r.story_id else st.storyData.storyId } }

/-- The three fixed placeholder choices of the local fallback
continuation (src/unnamed/part_002, lines 337-341). -/
def fallbackChoices : List String :=
  ["Explore the glowing cave ahead",
   "Climb the ancient oak tree",
   "Follow the rainbow path"]

/-- The locally synthesised filler paragraph of the fallback
continuation (src/unnamed/part_002, line 330). -/
def fillerParagraph (choice : String) : String :=
  "You chose to " ++ jsToLowerCase choice ++
    ". The adventure continues as new wonders unfold before your eyes..."

/-- Effect of a failed continue-story call: append one filler
paragraph, point currentParagraph at it, increment the iteration,
install the three placeholder choices unless the incremented
iteration reaches the cap (then null), and return to reading
(src/unnamed/part_002, lines 326-345). -/
def applyChoiceFallback (st : ScreenState) (choiceIndex : Nat) : ScreenState :=
  { st with
    phase := Phase.reading
    storyData :=
      { st.storyData with
        paragraphs := st.storyData.paragraphs ++
          [fillerParagraph ((st.storyData.choices.getD []).getD choiceIndex "")]
        currentParagraph := st.storyData.paragraphs.length
        iteration := st.storyData.iteration + 1
        choices :=
          if st.storyData.maxIterations ≤ st.storyData.iteration + 1 then none
          else some fallbackChoices } }

/-- The storyData record installed by resetStory.  The object literal
in the source omits the image, id and title fields entirely, so they
take the absent defaults (src/unnamed/part_002, lines 352-358). -/
def resetStoryData : StoryData :=
  { paragraphs := []
    currentParagraph := 0
    iteration := 1
    maxIterations := 10
    choices := none }

/-- The reset handler: phase input, empty user input, video trigger
cleared, storyData replaced by the fixed reset record
(src/unnamed/part_002, lines 348-359). -/
def resetStory (st : ScreenState) : ScreenState :=
  { st with
    phase := Phase.input
    userInput := ""
    videoTriggered := false
    storyData := resetStoryData }

/-- One user-visible transition of the story screen, parametrised by
a predicate restricting which continue-story responses the server may
send.  Handlers fire only from the phases whose UI exposes them:
generate from input, next from reading, choice selection from
choosing (with an index into the rendered choices), reset from
complete. -/
inductive StepP (P : ContinueResult → Prop) : ScreenState → ScreenState → Prop where
  | generate (st : ScreenState) (r : GenerateResult) (now : Nat) :
      st.phase = Phase.input → StepP P st (applyGenerateSuccess st r now)
  | generateFail (st : ScreenState) :
      st.phase = Phase.input → StepP P st (applyGenerateFailure st)
  | next (st : ScreenState) :
      st.phase = Phase.reading → StepP P st (handleNext st)
  | choiceSuccess (st : ScreenState) (r : ContinueResult) (i : Nat) :
      st.phase = Phase.choosing →
      i < (st.storyData.choices.getD []).length →
      P r → StepP P st (applyChoiceSuccess st r)
  | choiceFallback (st : ScreenState) (i : Nat) :
      st.phase = Phase.choosing →
      i < (st.storyData.choices.getD []).length →
      StepP P st (applyChoiceFallback st i)
  | reset (st : ScreenState) :
      st.phase = Phase.complete → StepP P st (resetStory st)

/-- Transitions under arbitrary server responses. -/
abbrev Step : ScreenState → ScreenState → Prop := StepP (fun _ => True)

/-- A continue-story response is well formed when it carries a
non-empty paragraph list together with a non-zero current-paragraph
index that points inside that list. -/
def GoodContinue (r : ContinueResult) : Prop :=
  ∃ ps n, r.paragraphs = some ps ∧ r.current_paragraph = some n ∧
    0 < n ∧ n < ps.length

/-- Transitions whose continue-story responses are well formed. -/
abbrev GoodStep : ScreenState → ScreenState → Prop := StepP GoodContinue

/-- The gallery deduplicating insert, on the parsed image-url list:
absent or empty urls are rejected, a url already present is skipped,
otherwise it is appended (src/unnamed/part_002, lines 26-48). -/
def saveImageToGallery (gallery : List String) (imageUrl : Option String) :
    List String :=
  if strTruthy imageUrl = false then gallery
  else if imageUrl.getD "" ∈ gallery then gallery
  else gallery ++ [imageUrl.getD ""]

/-- The same helper including its storage effects: the stored value
is the optional parsed list under the sessionImages key; a read or
write failure raises an exception that the catch block swallows,
leaving the stored value unchanged (src/unnamed/part_002,
lines 26-48). -/
def runSaveImageToGallery (imageUrl : Option String)
    (stored : Option (List String)) (readFails writeFails : Bool) :
    Option (List String) :=
  if strTruthy imageUrl = false then stored
  else if readFails then stored
  else if imageUrl.getD "" ∈ stored.getD [] then stored
  else if writeFails then stored
  else some (stored.getD [] ++ [imageUrl.getD ""])

/-- The backend base URL shared by all screens. -/
def apiURL : String := "https://bigredhacks25-331813490179.us-east4.run.app"

/-- The JSON body of a video-status response (fields read at
src/frontend/WonderKid/components/VideoPlayerScreen.js). -/
structure VideoStatusResponse where
  status : String
  video_url : Option String := none
  gcs_url : Option String := none
  message : Option String := none
  deriving DecidableEq, Repr

/-- A relative local video path is completed against the backend base
URL; an absolute one is kept
(src/frontend/WonderKid/components/VideoPlayerScreen.js,
lines 83-85 and 567-569). -/
def fullLocalUrl (u : String) : String :=
  if jsStartsWith u ("http") then u else apiURL ++ u

/-- Playback-URL selection of the first VideoPlayerScreen variant on
a completed status: the cloud (GCS) URL is always preferred, the
local URL is the fallback, absence of both is an error
(src/frontend/WonderKid/components/VideoPlayerScreen.js,
lines 61-98). -/
def selectPlaybackUrl1 (d : VideoStatusResponse) : Option String :=
  if strTruthy d.gcs_url then d.gcs_url
  else if strTruthy d.video_url then some (fullLocalUrl (d.video_url.getD ""))
  else none

/-- Playback-URL selection of the second VideoPlayerScreen variant on
a completed status: under Expo Go only the cloud URL is usable; in a
standalone build the local URL is tried first and the cloud URL is
the fallback (src/frontend/WonderKid/components/VideoPlayerScreen.js,
lines 539-588). -/
def selectPlaybackUrl2 (isExpoGo : Bool) (d : VideoStatusResponse) :
    Option String :=
  if isExpoGo then
    if strTruthy d.gcs_url then d.gcs_url else none
  else
    if strTruthy d.video_url then some (fullLocalUrl (d.video_url.getD ""))
    else if strTruthy d.gcs_url then d.gcs_url
    else none

/-- The poller-relevant state of the first VideoPlayerScreen variant:
the current videoStatus, whether the 3-second interval is still
armed, and the derived view fields
(src/frontend/WonderKid/components/VideoPlayerScreen.js,
lines 19-48). -/
structure PollerState where
  videoStatus : String
  intervalActive : Bool
  videoUrl : Option String := none
  loading : Bool := true
  error : Option String := none
  deriving DecidableEq, Repr

/-- Handling of one video-status response by checkVideoStatus of the
first VideoPlayerScreen variant: the status is stored; a completed
status with a playable URL records the URL and clears the polling
interval; processing keeps polling; not-started fires a generation
request; error surfaces the message
(src/frontend/WonderKid/components/VideoPlayerScreen.js,
lines 50-119). -/
def applyVideoStatusResponse (p : PollerState) (d : VideoStatusResponse) :
    PollerState :=
  if d.status = "completed" then
    if strTruthy d.gcs_url then
      { p with
        videoStatus := d.status
        videoUrl := d.gcs_url
        loading := false
        error := none
        intervalActive := false }
    else if strTruthy d.video_url then
      { p with
        videoStatus := d.status
        videoUrl := some (fullLocalUrl (d.video_url.getD ""))
        loading := false
        error := none
        intervalActive := false }
    else
      { p with
        videoStatus := d.status
        error := some ("Video URL not available")
        loading := false }
  else if d.status = "error" then
    { p with
      videoStatus := d.status
      error := some ((d.message).getD ("Video generation failed"))
      loading := false }
  else
    { p with videoStatus := d.status }

/-- The events that can reach the poller after it is set up: a
video-status response (or a failed status fetch), a response to the
generate-video request, the user pressing retry, and an interval
tick.  A tick issues a video-status request only when the interval is
armed and the last stored status is processing
(src/frontend/WonderKid/components/VideoPlayerScreen.js,
lines 31-48, 121-148, 177-182). -/
inductive PollerEvent where
  | statusResponse (d : VideoStatusResponse)
  | statusFailure
  | generateResponse (started : Bool)
  | retryPress
  | tick
  deriving DecidableEq, Repr

/-- State change caused by one poller event.  A tick by itself only
animates the progress bar; the request it may issue is answered by a
later statusResponse event. -/
def pollerStep : PollerState → PollerEvent → PollerState
  | p, PollerEvent.statusResponse d => applyVideoStatusResponse p d
  | p, PollerEvent.statusFailure =>
      { p with
        error := some ("Failed to check video status")
        loading := false }
  | p, PollerEvent.generateResponse started =>
      if started then { p with videoStatus := "processing" }
      else { p with error := some ("Failed to start video generation") }
  | p, PollerEvent.retryPress =>
      { p with error := none, loading := true, videoStatus := "checking" }
  | p, PollerEvent.tick => p

/-- Whether an interval tick issues a video-status request in the
given state: the interval must still be armed and the stored status
must be processing
(src/frontend/WonderKid/components/VideoPlayerScreen.js,
lines 35-41). -/
def tickIssuesRequest (p : PollerState) : Bool :=
  p.intervalActive && (p.videoStatus == "processing")

/-- A representative generate-story response: one paragraph, three
choices, a backend story id. -/
def exGenResult : GenerateResult :=
  { story_id := some ("s1")
    paragraphs := some (["Once upon a time."])
    choices := some (["a", "b", "c"]) }

/-- A representative successful continue-story response that keeps
offering three choices. -/
def exContinueResult : ContinueResult :=
  { paragraphs := some (["Once upon a time."])
    choices := some (["a", "b", "c"])
    story_id := some ("s1") }

/-- The session state right after the generate-story response. -/
def exS1 : ScreenState := applyGenerateSuccess initState exGenResult 0

/-- The session state after pressing next once: the single local
paragraph is exhausted, so the phase is choosing. -/
def exS2 : ScreenState := handleNext exS1

/-- One full round from a choosing state: a successful continuation
followed by pressing next, which returns to choosing while the
iteration cap is not reached. -/
def chooseRound (s : ScreenState) : ScreenState :=
  handleNext (applyChoiceSuccess s exContinueResult)

/-- C7: the gallery insert never creates duplicates: starting from a
duplicate-free gallery, inserting any URL keeps the list
duplicate-free, and repeating the same insertion is a no-op. -/
theorem saveImageToGallery_no_duplicates (g : List String) (u : Option String)
    (h : g.Nodup) :
    (saveImageToGallery g u).Nodup ∧
    saveImageToGallery (saveImageToGallery g u) u = saveImageToGallery g u := by
  unfold saveImageToGallery
  by_cases ht : strTruthy u = false
  · simp [ht, h]
  · simp only [ht, if_false, Bool.not_eq_false] at *
    by_cases hm : u.getD "" ∈ g
    · simp [ht, hm, h]
    · have hnd : (g ++ [u.getD ""]).Nodup := by
        simp [List.nodup_append, h, hm]
      simp [ht, hm, hnd]

/-- Witness for C7 at a concrete gallery and URL. -/
theorem saveImageToGallery_no_duplicates_witness :
    (saveImageToGallery ["u1"] (some ("u2"))).Nodup ∧
    saveImageToGallery (saveImageToGallery ["u1"] (some ("u2"))) (some ("u2")) =
      saveImageToGallery ["u1"] (some ("u2")) :=
  saveImageToGallery_no_duplicates ["u1"] (some ("u2")) (by decide)

/-- C9: resetStory ignores the prior session: for every prior state
the resulting phase is input, the user input is empty, the video
trigger is cleared, and the storyData is exactly the fixed reset
record, in which the imageUrl and imageGenerated fields are dropped
back to their absent defaults. -/
theorem resetStory_constant (st : ScreenState) :
    (resetStory st).phase = Phase.input ∧
    (resetStory st).userInput = "" ∧
    (resetStory st).videoTriggered = false ∧
    (resetStory st).storyData = resetStoryData ∧
    (resetStory st).storyData.imageUrl = none ∧
    (resetStory st).storyData.imageGenerated = false :=
  ⟨rfl, rfl, rfl, rfl, rfl, rfl⟩

/-- C10: the gallery write with its storage effects is a no-op when
the URL is absent or empty, when the storage read fails, and when the
storage write fails: in each case the persisted value is returned
unchanged. -/
theorem runSaveImageToGallery_frame (u : Option String)
    (stored : Option (List String)) (rf wf : Bool) :
    (strTruthy u = false → runSaveImageToGallery u stored rf wf = stored) ∧
    (rf = true → runSaveImageToGallery u stored rf wf = stored) ∧
    (wf = true → runSaveImageToGallery u stored rf wf = stored) := by
  unfold runSaveImageToGallery
  refine ⟨fun h => by simp [h], fun h => by simp [h], fun h => ?_⟩
  subst h
  by_cases ht : strTruthy u = false
  · simp [ht]
  · by_cases hrf : rf <;> by_cases hm : u.getD "" ∈ stored.getD [] <;>
      simp [ht, hrf, hm]

/-- Witness for C10: each no-op case evaluated at concrete inputs. -/
theorem runSaveImageToGallery_frame_witness :
    runSaveImageToGallery (some ("")) (some (["u1"])) false false = some (["u1"]) ∧
    runSaveImageToGallery (some ("u2")) (some (["u1"])) true false = some (["u1"]) ∧
    runSaveImageToGallery (some ("u2")) (some (["u1"])) false true = some (["u1"]) :=
  ⟨(runSaveImageToGallery_frame (some ("")) (some (["u1"])) false false).1 (by decide),
   (runSaveImageToGallery_frame (some ("u2")) (some (["u1"])) true false).2.1 rfl,
   (runSaveImageToGallery_frame (some ("u2")) (some (["u1"])) false true).2.2 rfl⟩

/-- A reading state with two local paragraphs still to show. -/
def exReadingState : ScreenState :=
  { phase := Phase.reading
    userInput := ""
    videoTriggered := false
    storyData :=
      { paragraphs := ["p1", "p2"]
        currentParagraph := 0
        iteration := 1
        maxIterations := 10
        choices := some (["a", "b", "c"]) }
    sessionStoryIdRef := some ("s1") }

/-- C2: pressing next advances currentParagraph by one exactly while
more local paragraphs remain; once they are exhausted the phase
becomes choosing precisely when choices are present and the iteration
is below the cap, and complete otherwise. -/
theorem handleNext_spec (st : ScreenState) :
    (st.storyData.currentParagraph + 1 < st.storyData.paragraphs.length →
      handleNext st =
        { st with storyData :=
          { st.storyData with
            currentParagraph := st.storyData.currentParagraph + 1 } }) ∧
    (st.storyData.paragraphs.length ≤ st.storyData.currentParagraph + 1 →
      (st.storyData.choices.isSome = true ∧
          st.storyData.iteration < st.storyData.maxIterations →
        handleNext st = { st with phase := Phase.choosing }) ∧
      (¬ (st.storyData.choices.isSome = true ∧
          st.storyData.iteration < st.storyData.maxIterations) →
        handleNext st = { st with phase := Phase.complete })) := by
  have hiff : ((st.storyData.currentParagraph : Int) <
      (st.storyData.paragraphs.length : Int) - 1) ↔
      st.storyData.currentParagraph + 1 < st.storyData.paragraphs.length := by
    omega
  constructor
  · intro h
    unfold handleNext
    rw [if_pos (hiff.mpr h)]
  · intro h
    have hneg : ¬ ((st.storyData.currentParagraph : Int) <
        (st.storyData.paragraphs.length : Int) - 1) := by
      rw [hiff]; omega
    refine ⟨fun hc => ?_, fun hc => ?_⟩
    · unfold handleNext
      rw [if_neg hneg, if_pos hc]
    · unfold handleNext
      rw [if_neg hneg, if_neg hc]

/-- Witness for C2: in a concrete reading state with a second local
paragraph, next advances the paragraph index. -/
theorem handleNext_spec_witness :
    handleNext exReadingState =
      { exReadingState with storyData :=
        { exReadingState.storyData with currentParagraph := 1 } } :=
  (handleNext_spec exReadingState).1 (by decide)

/-- A generate-story response without a story id. -/
def noIdGenResult : GenerateResult :=
  { paragraphs := some (["p"])
    choices := some (["a"]) }

/-- A continue-story response without a story id. -/
def noIdContinueResult : ContinueResult :=
  { paragraphs := some (["p", "q"])
    current_paragraph := some 1 }

/-- C8: a missing or empty story id in a server response is never
fatal: story generation substitutes the locally generated fallback id
and still reaches the reading phase, and a continuation keeps the
previous session id (both in storyData and in the session ref) and
still reaches the reading phase. -/
theorem storyId_fallback (st : ScreenState) (r : GenerateResult)
    (rc : ContinueResult) (now : Nat)
    (h1 : r.story_id = none ∨ r.story_id = some "")
    (h2 : rc.story_id = none ∨ rc.story_id = some "") :
    (applyGenerateSuccess st r now).storyData.storyId =
      some ("story_" ++ toString now) ∧
    (applyGenerateSuccess st r now).sessionStoryIdRef =
      some ("story_" ++ toString now) ∧
    (applyGenerateSuccess st r now).phase = Phase.reading ∧
    (applyChoiceSuccess st rc).storyData.storyId = st.storyData.storyId ∧
    (applyChoiceSuccess st rc).sessionStoryIdRef = st.sessionStoryIdRef ∧
    (applyChoiceSuccess st rc).phase = Phase.reading := by
  have htrim : jsTrim "" = "" := by decide
  have hresolve : resolveStoryId r.story_id now = "story_" ++ toString now := by
    rcases h1 with h | h
    · simp [h, resolveStoryId]
    · simp [h, resolveStoryId, htrim]
  have htr : strTruthy rc.story_id = false := by
    rcases h2 with h | h <;> simp [h, strTruthy]
  refine ⟨?_, ?_, rfl, ?_, ?_, rfl⟩
  · simp [applyGenerateSuccess, hresolve]
  · simp [applyGenerateSuccess, hresolve]
  · simp [applyChoiceSuccess, htr]
  · simp [applyChoiceSuccess, htr]

/-- Witness for C8 at concrete responses lacking a story id. -/
theorem storyId_fallback_witness :
    (applyGenerateSuccess initState noIdGenResult 42).storyData.storyId =
      some ("story_" ++ toString 42) ∧
    (applyChoiceSuccess exS2 noIdContinueResult).storyData.storyId =
      exS2.storyData.storyId ∧
    (applyChoiceSuccess exS2 noIdContinueResult).phase = Phase.reading :=
  ⟨(storyId_fallback initState noIdGenResult noIdContinueResult 42
      (Or.inl rfl) (Or.inl rfl)).1,
   (storyId_fallback exS2 noIdGenResult noIdContinueResult 42
      (Or.inl rfl) (Or.inl rfl)).2.2.2.1,
   (storyId_fallback exS2 noIdGenResult noIdContinueResult 42
      (Or.inl rfl) (Or.inl rfl)).2.2.2.2.2⟩

/-- A completed video-status response that carries both a cloud and a
local URL. -/
def exBothUrls : VideoStatusResponse :=
  { status := "completed"
    video_url := some ("/videos/story_final.mp4")
    gcs_url := some ("https://storage.googleapis.com/wonderkid/story_final.mp4") }

/-- Counterexample to C5: on a completed response carrying both URLs,
the second VideoPlayerScreen variant running as a standalone build
selects the local URL, not the cloud URL. -/
theorem playbackUrl_counterexample :
    exBothUrls.status = "completed" ∧
    exBothUrls.gcs_url.isSome = true ∧
    exBothUrls.video_url.isSome = true ∧
    selectPlaybackUrl2 false exBothUrls =
      some (apiURL ++ "/videos/story_final.mp4") ∧
    selectPlaybackUrl2 false exBothUrls ≠ exBothUrls.gcs_url := by
  refine ⟨rfl, rfl, rfl, by decide, by decide⟩

/-- C5 amended: the first VideoPlayerScreen variant always prefers
the cloud URL when both are present, and the second variant prefers
it exactly when running under Expo Go; a standalone build of the
second variant selects the local URL first. -/
theorem playbackUrl_preference (d : VideoStatusResponse)
    (hg : strTruthy d.gcs_url = true) (hv : strTruthy d.video_url = true) :
    selectPlaybackUrl1 d = d.gcs_url ∧
    selectPlaybackUrl2 true d = d.gcs_url ∧
    selectPlaybackUrl2 false d = some (fullLocalUrl (d.video_url.getD "")) := by
  simp [selectPlaybackUrl1, selectPlaybackUrl2, hg, hv]

/-- Witness for the amended C5 at the concrete two-URL response. -/
theorem playbackUrl_preference_witness :
    selectPlaybackUrl1 exBothUrls = exBothUrls.gcs_url ∧
    selectPlaybackUrl2 true exBothUrls = exBothUrls.gcs_url :=
  ⟨(playbackUrl_preference exBothUrls (by decide) (by decide)).1,
   (playbackUrl_preference exBothUrls (by decide) (by decide)).2.1⟩

/-- No poller event re-arms a cleared polling interval. -/
theorem pollerStep_keeps_interval_cleared (p : PollerState) (e : PollerEvent)
    (h : p.intervalActive = false) : (pollerStep p e).intervalActive = false := by
  cases e with
  | statusResponse d =>
      simp only [pollerStep]
      unfold applyVideoStatusResponse
      split_ifs <;> simp [h]
  | statusFailure => simpa [pollerStep] using h
  | generateResponse started => cases started <;> simpa [pollerStep] using h
  | retryPress => simpa [pollerStep] using h
  | tick => simpa [pollerStep] using h

/-- C6: once the poller has handled a completed status response with
a playable URL, no later event sequence can make an interval tick
issue another video-status request: the interval is cleared and stays
cleared. -/
theorem poller_stops_after_completed (p : PollerState) (d : VideoStatusResponse)
    (hc : d.status = "completed")
    (hurl : strTruthy d.gcs_url = true ∨ strTruthy d.video_url = true)
    (evs : List PollerEvent) :
    tickIssuesRequest (evs.foldl pollerStep (applyVideoStatusResponse p d)) =
      false := by
  have hstart : (applyVideoStatusResponse p d).intervalActive = false := by
    rcases hurl with h | h
    · simp [applyVideoStatusResponse, hc, h]
    · by_cases hg : strTruthy d.gcs_url = true
      · simp [applyVideoStatusResponse, hc, hg]
      · have hg2 : strTruthy d.gcs_url = false := by simpa using hg
        simp [applyVideoStatusResponse, hc, h, hg2]
  have hall : ∀ q : PollerState, q.intervalActive = false →
      (evs.foldl pollerStep q).intervalActive = false := by
    induction evs with
    | nil => exact fun q hq => hq
    | cons e es ih =>
        intro q hq
        rw [List.foldl_cons]
        exact ih _ (pollerStep_keeps_interval_cleared q e hq)
  simp [tickIssuesRequest, hall _ hstart]

/-- A poller state that has been polling a processing job. -/
def exPollingState : PollerState :=
  { videoStatus := "processing", intervalActive := true }

/-- Witness for C6: after the completed response, three further
events (two ticks and a retry press) still issue no request. -/
theorem poller_stops_after_completed_witness :
    tickIssuesRequest
      ([PollerEvent.tick, PollerEvent.retryPress, PollerEvent.tick].foldl
        pollerStep (applyVideoStatusResponse exPollingState exBothUrls)) =
      false :=
  poller_stops_after_completed exPollingState exBothUrls rfl
    (Or.inl (by decide)) [PollerEvent.tick, PollerEvent.retryPress, PollerEvent.tick]

/-- One choosing-to-choosing round is two UI transitions: a
successful continuation followed by pressing next. -/
theorem chooseRound_reachable (s : ScreenState) (h : s.phase = Phase.choosing)
    (hlen : 0 < (s.storyData.choices.getD []).length) :
    Relation.ReflTransGen Step s (chooseRound s) := by
  have h1 : Step s (applyChoiceSuccess s exContinueResult) :=
    StepP.choiceSuccess s exContinueResult 0 h hlen trivial
  have h2 : Step (applyChoiceSuccess s exContinueResult) (chooseRound s) :=
    StepP.next (applyChoiceSuccess s exContinueResult) rfl
  exact Relation.ReflTransGen.head h1 (Relation.ReflTransGen.single h2)

/-- The choosing state at iteration 1 is reachable from the initial
state: generate a story, then press next. -/
theorem reach_exS2 : Relation.ReflTransGen Step initState exS2 := by
  have h1 : Step initState exS1 := StepP.generate initState exGenResult 0 rfl
  have h2 : Step exS1 exS2 := StepP.next exS1 rfl
  exact Relation.ReflTransGen.head h1 (Relation.ReflTransGen.single h2)

/-- A reachable choosing state at iteration 9: eight full
continuation rounds after the first choosing state. -/
def exChoosing9 : ScreenState :=
  chooseRound (chooseRound (chooseRound (chooseRound (chooseRound
    (chooseRound (chooseRound (chooseRound exS2)))))))

/-- The iteration-9 choosing state is reachable from the initial
state. -/
theorem reach_exChoosing9 :
    Relation.ReflTransGen Step initState exChoosing9 := by
  have r1 := chooseRound_reachable exS2 (by decide) (by decide)
  have r2 := chooseRound_reachable (chooseRound exS2) (by decide) (by decide)
  have r3 := chooseRound_reachable (chooseRound (chooseRound exS2))
    (by decide) (by decide)
  have r4 := chooseRound_reachable (chooseRound (chooseRound (chooseRound exS2)))
    (by decide) (by decide)
  have r5 := chooseRound_reachable
    (chooseRound (chooseRound (chooseRound (chooseRound exS2))))
    (by decide) (by decide)
  have r6 := chooseRound_reachable
    (chooseRound (chooseRound (chooseRound (chooseRound (chooseRound exS2)))))
    (by decide) (by decide)
  have r7 := chooseRound_reachable
    (chooseRound (chooseRound (chooseRound (chooseRound (chooseRound
      (chooseRound exS2))))))
    (by decide) (by decide)
  have r8 := chooseRound_reachable
    (chooseRound (chooseRound (chooseRound (chooseRound (chooseRound
      (chooseRound (chooseRound exS2)))))))
    (by decide) (by decide)
  exact reach_exS2.trans (r1.trans (r2.trans (r3.trans (r4.trans
    (r5.trans (r6.trans (r7.trans r8)))))))

/-- The state produced when the server keeps sending choices on the
continuation that raises the iteration to 10. -/
def exBad10 : ScreenState := applyChoiceSuccess exChoosing9 exContinueResult

/-- Counterexample to C1: a reachable session state whose iteration
equals maxIterations while choices are still present (non-null): the
success branch of handleChoice stores the choices the server
returned even on the continuation that reaches the cap. -/
theorem iteration_choices_counterexample :
    Relation.ReflTransGen Step initState exBad10 ∧
    exBad10.storyData.iteration = exBad10.storyData.maxIterations ∧
    exBad10.storyData.choices ≠ none := by
  refine ⟨?_, by decide, by decide⟩
  exact reach_exChoosing9.trans
    (Relation.ReflTransGen.single
      (StepP.choiceSuccess exChoosing9 exContinueResult 0
        (by decide) (by decide) trivial))

/-- C1 amended: iteration never decreases within a session: next
leaves it unchanged and each continuation (success or fallback)
increments it by exactly one; once the incremented iteration reaches
maxIterations the fallback branch stores null choices, and once
iteration is at least maxIterations the session can never enter the
choosing phase again; the success branch, however, stores whatever
choices the server returned, which may be non-null even at the
cap. -/
theorem iteration_monotone_terminal (st : ScreenState) (r : ContinueResult)
    (i : Nat) :
    (applyChoiceSuccess st r).storyData.iteration =
      st.storyData.iteration + 1 ∧
    (applyChoiceFallback st i).storyData.iteration =
      st.storyData.iteration + 1 ∧
    (handleNext st).storyData.iteration = st.storyData.iteration ∧
    (st.storyData.maxIterations ≤ st.storyData.iteration + 1 →
      (applyChoiceFallback st i).storyData.choices = none) ∧
    (st.storyData.maxIterations ≤ st.storyData.iteration →
      st.phase ≠ Phase.choosing →
      (handleNext st).phase ≠ Phase.choosing) := by
  refine ⟨rfl, rfl, ?_, ?_, ?_⟩
  · unfold handleNext
    split_ifs <;> rfl
  · intro h
    simp [applyChoiceFallback, h]
  · intro hmax hph
    unfold handleNext
    split_ifs with h1 h2
    · exact hph
    · exact absurd h2.2 (Nat.not_lt.mpr hmax)
    · intro hx
      exact Phase.noConfusion hx

/-- A terminal reading state at the iteration cap. -/
def exTerminalState : ScreenState :=
  { phase := Phase.reading
    userInput := ""
    videoTriggered := true
    storyData :=
      { paragraphs := ["p"]
        currentParagraph := 0
        iteration := 10
        maxIterations := 10
        choices := some (["a", "b", "c"]) }
    sessionStoryIdRef := some ("s1") }

/-- Witness for the amended C1 at a concrete state at the cap. -/
theorem iteration_monotone_terminal_witness :
    (applyChoiceFallback exTerminalState 0).storyData.choices = none ∧
    (handleNext exTerminalState).phase ≠ Phase.choosing :=
  ⟨(iteration_monotone_terminal exTerminalState exContinueResult 0).2.2.2.1
      (by decide),
   (iteration_monotone_terminal exTerminalState exContinueResult 0).2.2.2.2
      (by decide) (by decide)⟩

/-- Counterexample to C3: in a reachable choosing state at iteration
9, a failed continuation yields null choices, not the three
placeholder choices. -/
theorem fallback_choices_counterexample :
    Relation.ReflTransGen Step initState exChoosing9 ∧
    exChoosing9.phase = Phase.choosing ∧
    exChoosing9.storyData.iteration = 9 ∧
    (applyChoiceFallback exChoosing9 0).phase = Phase.reading ∧
    (applyChoiceFallback exChoosing9 0).storyData.choices = none :=
  ⟨reach_exChoosing9, by decide, by decide, rfl, by decide⟩

/-- C3 amended: a failed continuation always appends exactly the one
locally generated filler paragraph, points currentParagraph at it and
returns to the reading phase; it installs the three fixed placeholder
choices when the incremented iteration is still below maxIterations,
and null choices once the incremented iteration reaches the cap. -/
theorem choiceFallback_spec (st : ScreenState) (i : Nat) :
    (applyChoiceFallback st i).storyData.paragraphs =
      st.storyData.paragraphs ++
        [fillerParagraph ((st.storyData.choices.getD []).getD i "")] ∧
    (applyChoiceFallback st i).storyData.currentParagraph =
      st.storyData.paragraphs.length ∧
    (applyChoiceFallback st i).phase = Phase.reading ∧
    fallbackChoices.length = 3 ∧
    (st.storyData.iteration + 1 < st.storyData.maxIterations →
      (applyChoiceFallback st i).storyData.choices = some fallbackChoices) ∧
    (st.storyData.maxIterations ≤ st.storyData.iteration + 1 →
      (applyChoiceFallback st i).storyData.choices = none) := by
  refine ⟨rfl, rfl, rfl, rfl, ?_, ?_⟩
  · intro h
    have hc : ¬ st.storyData.maxIterations ≤ st.storyData.iteration + 1 := by
      omega
    simp [applyChoiceFallback, hc]
  · intro h
    simp [applyChoiceFallback, h]

/-- Witness for the amended C3 below and at the iteration cap. -/
theorem choiceFallback_spec_witness :
    (applyChoiceFallback exReadingState 0).storyData.choices =
      some fallbackChoices ∧
    (applyChoiceFallback exTerminalState 0).storyData.choices = none :=
  ⟨(choiceFallback_spec exReadingState 0).2.2.2.2.1 (by decide),
   (choiceFallback_spec exTerminalState 0).2.2.2.2.2 (by decide)⟩

/-- A continuation response whose current-paragraph index lies
outside the paragraph list it carries. -/
def badContinueResult : ContinueResult :=
  { paragraphs := some (["The end."])
    current_paragraph := some 5
    choices := some (["a", "b", "c"])
    story_id := some ("s1") }

/-- The reachable state produced by that response. -/
def exBadCp : ScreenState := applyChoiceSuccess exS2 badContinueResult

/-- Counterexample to C4: a reachable session state with a non-empty
paragraph list whose currentParagraph points outside the list: the
success branch of handleChoice adopts the current-paragraph index of
the server response without a range check. -/
theorem currentParagraph_counterexample :
    Relation.ReflTransGen Step initState exBadCp ∧
    exBadCp.storyData.paragraphs ≠ [] ∧
    ¬ exBadCp.storyData.currentParagraph <
        exBadCp.storyData.paragraphs.length := by
  refine ⟨?_, by decide, by decide⟩
  exact reach_exS2.trans
    (Relation.ReflTransGen.single
      (StepP.choiceSuccess exS2 badContinueResult 0
        (by decide) (by decide) trivial))

/-- C4 amended: the invariant currentParagraph < length(paragraphs)
holds in every state reachable under well-formed continuation
responses (non-empty paragraph list with an in-range non-zero
current-paragraph index); handleNext, the fallback branch and
generate-story preserve it unconditionally. -/
theorem currentParagraph_invariant (s : ScreenState)
    (h : Relation.ReflTransGen GoodStep initState s)
    (hne : s.storyData.paragraphs ≠ []) :
    s.storyData.currentParagraph < s.storyData.paragraphs.length := by
  induction h with
  | refl => exact absurd rfl hne
  | @tail b c hab hstep ih =>
      cases hstep with
      | generate r now hph =>
          show 0 < (r.paragraphs.getD []).length
          have hne2 : r.paragraphs.getD [] ≠ [] := hne
          exact List.length_pos.mpr hne2
      | generateFail hph => exact ih hne
      | next hph =>
          revert hne
          unfold handleNext
          split_ifs with h1 h2
          · intro _
            show b.storyData.currentParagraph + 1 <
              b.storyData.paragraphs.length
            omega
          · exact fun hne2 => ih hne2
          · exact fun hne2 => ih hne2
      | choiceSuccess r i hph hi hg =>
          obtain ⟨ps, n, hps, hn, hn0, hlt⟩ := hg
          show numOr r.current_paragraph b.storyData.currentParagraph <
            (r.paragraphs.getD b.storyData.paragraphs).length
          have hne0 : ¬ n = 0 := by omega
          simp [numOr, hps, hn, hne0]
          exact hlt
      | choiceFallback i hph hi =>
          show b.storyData.paragraphs.length <
            (b.storyData.paragraphs ++
              [fillerParagraph ((b.storyData.choices.getD []).getD i "")]).length
          simp
      | reset hph => exact absurd rfl hne

/-- Witness for the amended C4: the state right after a generate
response has its paragraph index inside the list. -/
theorem currentParagraph_invariant_witness :
    (applyGenerateSuccess initState exGenResult 0).storyData.currentParagraph <
      (applyGenerateSuccess initState exGenResult 0).storyData.paragraphs.length :=
  currentParagraph_invariant (applyGenerateSuccess initState exGenResult 0)
    (Relation.ReflTransGen.single (StepP.generate initState exGenResult 0 rfl))
    (by decide)
